import Mathlib

/-!
Verification of pkg/cloud/azure/actuators/cluster/actuator.go.

The file under verification is a pure orchestration shim: `Reconcile`
creates a scope and then calls, in a fixed order, certificate
reconciliation, resource-group reconciliation, network reconciliation and
load-balancer reconciliation (with the literal name "api"), short-circuiting
on the first error; `Delete` creates a scope and calls resource-group
deletion, translating failure into a `RequeueAfterError` with a fixed
5-second delay.  The collaborator services (certificates, network,
resources, the scope constructor) live outside this file; we model them as
an environment of oracles.  Each call additionally records the trace of
collaborator invocations it performs (log lines, scope acquisition and
release, service constructions, service operations), so that claims about
call order, fail-fast behaviour and scope release can be stated.
-/

namespace CAPZ

/-- A cluster record (clusterv1.Cluster); this actuator reads only its name. -/
structure Cluster where
  name : String
deriving DecidableEq

/-- The typed cluster-API client held by the actuator; opaque at this layer. -/
structure Client where
  id : Nat
deriving DecidableEq

/-- The generic deployer delegate embedded in the actuator; opaque at this layer. -/
structure Deployer where
  id : Nat
deriving DecidableEq

/-- Actuator is responsible for performing cluster reconciliation: it embeds a
deployer delegate and holds the cluster-API client reference. -/
structure Actuator where
  deployer : Deployer
  client : Client
deriving DecidableEq

/-- A provider session scope returned by actuators.NewScope; opaque at this layer. -/
structure Scope where
  id : Nat
deriving DecidableEq

/-- Arguments of actuators.NewScope: the cluster and the client. -/
structure ScopeParams where
  cluster : Cluster
  client : Client
deriving DecidableEq

/-- Go error values as this file builds and consumes them:
a leaf error with a message (errors.Errorf, or any collaborator error),
a wrapped error carrying its cause (errors.Wrapf), and the typed
controllerError.RequeueAfterError carrying a duration in nanoseconds. -/
inductive GoError where
  | basic (msg : String)
  | wrap (cause : GoError) (msg : String)
  | requeueAfter (dur : Int)
deriving DecidableEq

/-- The string an error renders to (its Error method); pkg/errors renders a
wrapped error as its message, a colon and the rendered cause. -/
def GoError.format : GoError → String
  | .basic m => m
  | .wrap c m => m ++ ": " ++ c.format
  | .requeueAfter d => "requeue in " ++ toString d

/-- The cause relation of pkg/errors: `causedBy er e` holds when unwrapping
`er` through its wrap layers reaches `e`. -/
inductive GoError.causedBy : GoError → GoError → Prop
  | here (c : GoError) (m : String) : GoError.causedBy (.wrap c m) c
  | deeper (c : GoError) (m : String) (e : GoError) :
      GoError.causedBy c e → GoError.causedBy (.wrap c m) e

/-- `carries er e`: the returned error `er` is `e` itself or has `e` as a
cause somewhere in its wrap chain (i.e. `e` was not swallowed). -/
def GoError.carries (er e : GoError) : Prop :=
  er = e ∨ GoError.causedBy er e

/-- Whether an error is the typed requeue signal (checked by the calling
controller via a type assertion, not string matching). -/
def GoError.isRequeueSignal : GoError → Bool
  | .requeueAfter _ => true
  | _ => false

/-- The requeue delay carried by a requeue signal, in nanoseconds. -/
def GoError.requeueDelay : GoError → Option Int
  | .requeueAfter d => some d
  | _ => none

/-- One observable collaborator interaction performed by the actuator.  The
deletion operations for load balancers, bastion and network exist in the
collaborator interfaces but are disabled in the actuator source; they appear
here so that their absence from every trace is a statement, not a tautology
of the vocabulary. -/
inductive Event where
  | logInfo (msg : String)
  | logError (msg : String)
  | newScope (params : ScopeParams)
  | scopeClose (s : Scope)
  | newNetworkService (s : Scope)
  | newResourcesService (s : Scope)
  | newCertificatesService (s : Scope)
  | reconcileCertificates (s : Scope)
  | reconcileResourceGroup (s : Scope)
  | reconcileNetwork (s : Scope)
  | reconcileBastion (s : Scope)
  | reconcileLoadBalancer (s : Scope) (name : String)
  | deleteLoadBalancers (s : Scope)
  | deleteBastion (s : Scope)
  | deleteNetwork (s : Scope)
  | deleteResourceGroup (s : Scope)
deriving DecidableEq

/-- Whether an event is a collaborator service operation (as opposed to a
log line, scope acquisition/release, or service construction). -/
def Event.isServiceOp : Event → Bool
  | .reconcileCertificates _ => true
  | .reconcileResourceGroup _ => true
  | .reconcileNetwork _ => true
  | .reconcileBastion _ => true
  | .reconcileLoadBalancer _ _ => true
  | .deleteLoadBalancers _ => true
  | .deleteBastion _ => true
  | .deleteNetwork _ => true
  | .deleteResourceGroup _ => true
  | _ => false

/-- Whether an event constructs a collaborator service. -/
def Event.isServiceCtor : Event → Bool
  | .newNetworkService _ => true
  | .newResourcesService _ => true
  | .newCertificatesService _ => true
  | _ => false

/-- Whether an event is a release of the scope (scope.Close). -/
def Event.isScopeClose : Event → Bool
  | .scopeClose _ => true
  | _ => false

/-- Whether an event is one of the deletion operations that exist in the
collaborator interfaces but are disabled (commented out) in the actuator
source: load-balancer, bastion and network deletion. -/
def Event.isDisabledDeleteOp : Event → Bool
  | .deleteLoadBalancers _ => true
  | .deleteBastion _ => true
  | .deleteNetwork _ => true
  | _ => false

/-- The service operations of a trace, in order. -/
def serviceCalls (evs : List Event) : List Event :=
  evs.filter Event.isServiceOp

/-- The service constructions of a trace, in order. -/
def serviceCtors (evs : List Event) : List Event :=
  evs.filter Event.isServiceCtor

/-- How many times the trace releases the scope. -/
def closeCount (evs : List Event) : Nat :=
  (evs.filter Event.isScopeClose).length

/-- The collaborators the actuator calls into, modelled as oracles: scope
construction, the three reconciliation services used by Reconcile, and the
resource-group deletion used by Delete.  Each operation either succeeds
(`none`) or fails with some error. -/
structure Env where
  newScope : ScopeParams → Except GoError Scope
  reconcileCertificates : Scope → Option GoError
  reconcileResourceGroup : Scope → Option GoError
  reconcileNetwork : Scope → Option GoError
  reconcileLoadBalancer : Scope → String → Option GoError
  deleteResourceGroup : Scope → Option GoError

/-- Go %q formatting of a name (escaping inside the name is not modelled;
the actuator only ever embeds the cluster name). -/
def goQuote (s : String) : String :=
  "\"" ++ s ++ "\""

/-- The outcome of one Reconcile or Delete call: the returned error (`none`
is Go nil), the trace of collaborator interactions, and the actuator and
cluster values as they stand when the call returns (the source performs no
assignment to either, which the definitions below make explicit by always
returning the inputs). -/
structure CallResult where
  err : Option GoError
  events : List Event
  actuator : Actuator
  cluster : Cluster

/-- Reconcile reconciles a cluster and is invoked by the Cluster Controller.
Mirrors the source: log, create the scope (failure formats the cause into an
errors.Errorf message and returns), defer scope.Close, construct the network,
resources and certificates services, then run the four steps fail-fast, each
failure wrapped via errors.Wrapf with a message naming the step and the
cluster name.  The deferred Close runs on every return after acquisition, so
it is the last event of each such trace. -/
def Actuator.Reconcile (env : Env) (a : Actuator) (cluster : Cluster) : CallResult :=
  let logEv := Event.logInfo ("Reconciling cluster " ++ cluster.name)
  let params : ScopeParams := { cluster := cluster, client := a.client }
  match env.newScope params with
  | .error e =>
      { err := some (GoError.basic ("failed to create scope: " ++ GoError.format e))
        events := [logEv, Event.newScope params]
        actuator := a, cluster := cluster }
  | .ok scope =>
      let pre := [logEv, Event.newScope params, Event.newNetworkService scope,
                  Event.newResourcesService scope, Event.newCertificatesService scope]
      match env.reconcileCertificates scope with
      | some e =>
          { err := some (GoError.wrap e
              ("failed to reconcile certificates for cluster " ++ goQuote cluster.name))
            events := pre ++ [Event.reconcileCertificates scope, Event.scopeClose scope]
            actuator := a, cluster := cluster }
      | none =>
        match env.reconcileResourceGroup scope with
        | some e =>
            { err := some (GoError.wrap e
                ("failed to reconcile resource group for cluster " ++ goQuote cluster.name))
              events := pre ++ [Event.reconcileCertificates scope,
                Event.reconcileResourceGroup scope, Event.scopeClose scope]
              actuator := a, cluster := cluster }
        | none =>
          match env.reconcileNetwork scope with
          | some e =>
              { err := some (GoError.wrap e
                  ("failed to reconcile network for cluster " ++ goQuote cluster.name))
                events := pre ++ [Event.reconcileCertificates scope,
                  Event.reconcileResourceGroup scope, Event.reconcileNetwork scope,
                  Event.scopeClose scope]
                actuator := a, cluster := cluster }
          | none =>
            match env.reconcileLoadBalancer scope "api" with
            | some e =>
                { err := some (GoError.wrap e
                    ("failed to reconcile load balancers for cluster " ++ goQuote cluster.name))
                  events := pre ++ [Event.reconcileCertificates scope,
                    Event.reconcileResourceGroup scope, Event.reconcileNetwork scope,
                    Event.reconcileLoadBalancer scope "api", Event.scopeClose scope]
                  actuator := a, cluster := cluster }
            | none =>
                { err := none
                  events := pre ++ [Event.reconcileCertificates scope,
                    Event.reconcileResourceGroup scope, Event.reconcileNetwork scope,
                    Event.reconcileLoadBalancer scope "api", Event.scopeClose scope]
                  actuator := a, cluster := cluster }

/-- Delete deletes a cluster and is invoked by the Cluster Controller.
Mirrors the source: log (the source logs the same "Reconciling cluster"
line), create the scope (failure handled as in Reconcile), defer
scope.Close, construct only the resources service (the network service
construction and all other deletion steps are commented out in the source),
call resource-group deletion; on failure log the error and return a
RequeueAfterError with delay 5 * 1000 * 1000 * 1000 nanoseconds, on success
return nil. -/
def Actuator.Delete (env : Env) (a : Actuator) (cluster : Cluster) : CallResult :=
  let logEv := Event.logInfo ("Reconciling cluster " ++ cluster.name)
  let params : ScopeParams := { cluster := cluster, client := a.client }
  match env.newScope params with
  | .error e =>
      { err := some (GoError.basic ("failed to create scope: " ++ GoError.format e))
        events := [logEv, Event.newScope params]
        actuator := a, cluster := cluster }
  | .ok scope =>
      match env.deleteResourceGroup scope with
      | some e =>
          { err := some (GoError.requeueAfter (5 * 1000 * 1000 * 1000))
            events := [logEv, Event.newScope params, Event.newResourcesService scope,
              Event.deleteResourceGroup scope,
              Event.logError ("Error deleting resource group: " ++ GoError.format e ++ "."),
              Event.scopeClose scope]
            actuator := a, cluster := cluster }
      | none =>
          { err := none
            events := [logEv, Event.newScope params, Event.newResourcesService scope,
              Event.deleteResourceGroup scope, Event.scopeClose scope]
            actuator := a, cluster := cluster }

/-- Whether scope construction succeeded. -/
def scopeAcquired : Except GoError Scope → Bool
  | .ok _ => true
  | .error _ => false

/-- A concrete scope used by the concrete environments below. -/
def scope0 : Scope := { id := 0 }

/-- A concrete client. -/
def client0 : Client := { id := 0 }

/-- A concrete actuator. -/
def act0 : Actuator := { deployer := { id := 0 }, client := client0 }

/-- A concrete cluster. -/
def cluster0 : Cluster := { name := "test-cluster" }

/-- Environment in which every collaborator succeeds. -/
def envOk : Env where
  newScope := fun _ => .ok scope0
  reconcileCertificates := fun _ => none
  reconcileResourceGroup := fun _ => none
  reconcileNetwork := fun _ => none
  reconcileLoadBalancer := fun _ _ => none
  deleteResourceGroup := fun _ => none

/-- Environment in which scope construction fails. -/
def envScopeFail : Env :=
  { envOk with newScope := fun _ => .error (GoError.basic "no credentials") }

/-- Environment in which certificate reconciliation fails. -/
def envCertFail : Env :=
  { envOk with reconcileCertificates := fun _ => some (GoError.basic "cert boom") }

/-- Environment in which resource-group reconciliation fails. -/
def envRgFail : Env :=
  { envOk with reconcileResourceGroup := fun _ => some (GoError.basic "rg boom") }

/-- Environment in which network reconciliation fails. -/
def envNetFail : Env :=
  { envOk with reconcileNetwork := fun _ => some (GoError.basic "net boom") }

/-- Environment in which load-balancer reconciliation fails. -/
def envLbFail : Env :=
  { envOk with reconcileLoadBalancer := fun _ _ => some (GoError.basic "lb boom") }

/-- Environment in which resource-group deletion fails. -/
def envDeleteFail : Env :=
  { envOk with deleteResourceGroup := fun _ => some (GoError.basic "boom") }

example : (Actuator.Reconcile envOk act0 cluster0).err = none := by rfl

example : serviceCalls (Actuator.Reconcile envOk act0 cluster0).events =
    [Event.reconcileCertificates scope0, Event.reconcileResourceGroup scope0,
     Event.reconcileNetwork scope0, Event.reconcileLoadBalancer scope0 "api"] := by rfl

example : (Actuator.Reconcile envCertFail act0 cluster0).err =
    some (GoError.wrap (GoError.basic "cert boom")
      "failed to reconcile certificates for cluster \"test-cluster\"") := by rfl

example : (Actuator.Delete envDeleteFail act0 cluster0).err =
    some (GoError.requeueAfter 5000000000) := by rfl

example : closeCount (Actuator.Reconcile envScopeFail act0 cluster0).events = 0 := by rfl

/-- Characterization: Reconcile when scope construction fails. -/
theorem reconcile_scopeFail_eq (env : Env) (a : Actuator) (c : Cluster) (e : GoError)
    (h : env.newScope { cluster := c, client := a.client } = Except.error e) :
    Actuator.Reconcile env a c =
      { err := some (GoError.basic ("failed to create scope: " ++ GoError.format e))
        events := [Event.logInfo ("Reconciling cluster " ++ c.name),
                   Event.newScope { cluster := c, client := a.client }]
        actuator := a, cluster := c } := by
  simp [Actuator.Reconcile, h]

/-- Characterization: Reconcile when certificate reconciliation fails. -/
theorem reconcile_certFail_eq (env : Env) (a : Actuator) (c : Cluster) (s : Scope) (e : GoError)
    (hs : env.newScope { cluster := c, client := a.client } = Except.ok s)
    (h1 : env.reconcileCertificates s = some e) :
    Actuator.Reconcile env a c =
      { err := some (GoError.wrap e
          ("failed to reconcile certificates for cluster " ++ goQuote c.name))
        events := [Event.logInfo ("Reconciling cluster " ++ c.name),
                   Event.newScope { cluster := c, client := a.client },
                   Event.newNetworkService s, Event.newResourcesService s,
                   Event.newCertificatesService s,
                   Event.reconcileCertificates s, Event.scopeClose s]
        actuator := a, cluster := c } := by
  simp [Actuator.Reconcile, hs, h1]

/-- Characterization: Reconcile when resource-group reconciliation fails. -/
theorem reconcile_rgFail_eq (env : Env) (a : Actuator) (c : Cluster) (s : Scope) (e : GoError)
    (hs : env.newScope { cluster := c, client := a.client } = Except.ok s)
    (h1 : env.reconcileCertificates s = none)
    (h2 : env.reconcileResourceGroup s = some e) :
    Actuator.Reconcile env a c =
      { err := some (GoError.wrap e
          ("failed to reconcile resource group for cluster " ++ goQuote c.name))
        events := [Event.logInfo ("Reconciling cluster " ++ c.name),
                   Event.newScope { cluster := c, client := a.client },
                   Event.newNetworkService s, Event.newResourcesService s,
                   Event.newCertificatesService s,
                   Event.reconcileCertificates s, Event.reconcileResourceGroup s,
                   Event.scopeClose s]
        actuator := a, cluster := c } := by
  simp [Actuator.Reconcile, hs, h1, h2]

/-- Characterization: Reconcile when network reconciliation fails. -/
theorem reconcile_netFail_eq (env : Env) (a : Actuator) (c : Cluster) (s : Scope) (e : GoError)
    (hs : env.newScope { cluster := c, client := a.client } = Except.ok s)
    (h1 : env.reconcileCertificates s = none)
    (h2 : env.reconcileResourceGroup s = none)
    (h3 : env.reconcileNetwork s = some e) :
    Actuator.Reconcile env a c =
      { err := some (GoError.wrap e
          ("failed to reconcile network for cluster " ++ goQuote c.name))
        events := [Event.logInfo ("Reconciling cluster " ++ c.name),
                   Event.newScope { cluster := c, client := a.client },
                   Event.newNetworkService s, Event.newResourcesService s,
                   Event.newCertificatesService s,
                   Event.reconcileCertificates s, Event.reconcileResourceGroup s,
                   Event.reconcileNetwork s, Event.scopeClose s]
        actuator := a, cluster := c } := by
  simp [Actuator.Reconcile, hs, h1, h2, h3]

/-- Characterization: Reconcile when load-balancer reconciliation fails. -/
theorem reconcile_lbFail_eq (env : Env) (a : Actuator) (c : Cluster) (s : Scope) (e : GoError)
    (hs : env.newScope { cluster := c, client := a.client } = Except.ok s)
    (h1 : env.reconcileCertificates s = none)
    (h2 : env.reconcileResourceGroup s = none)
    (h3 : env.reconcileNetwork s = none)
    (h4 : env.reconcileLoadBalancer s "api" = some e) :
    Actuator.Reconcile env a c =
      { err := some (GoError.wrap e
          ("failed to reconcile load balancers for cluster " ++ goQuote c.name))
        events := [Event.logInfo ("Reconciling cluster " ++ c.name),
                   Event.newScope { cluster := c, client := a.client },
                   Event.newNetworkService s, Event.newResourcesService s,
                   Event.newCertificatesService s,
                   Event.reconcileCertificates s, Event.reconcileResourceGroup s,
                   Event.reconcileNetwork s, Event.reconcileLoadBalancer s "api",
                   Event.scopeClose s]
        actuator := a, cluster := c } := by
  simp [Actuator.Reconcile, hs, h1, h2, h3, h4]

/-- Characterization: Reconcile when every step succeeds. -/
theorem reconcile_ok_eq (env : Env) (a : Actuator) (c : Cluster) (s : Scope)
    (hs : env.newScope { cluster := c, client := a.client } = Except.ok s)
    (h1 : env.reconcileCertificates s = none)
    (h2 : env.reconcileResourceGroup s = none)
    (h3 : env.reconcileNetwork s = none)
    (h4 : env.reconcileLoadBalancer s "api" = none) :
    Actuator.Reconcile env a c =
      { err := none
        events := [Event.logInfo ("Reconciling cluster " ++ c.name),
                   Event.newScope { cluster := c, client := a.client },
                   Event.newNetworkService s, Event.newResourcesService s,
                   Event.newCertificatesService s,
                   Event.reconcileCertificates s, Event.reconcileResourceGroup s,
                   Event.reconcileNetwork s, Event.reconcileLoadBalancer s "api",
                   Event.scopeClose s]
        actuator := a, cluster := c } := by
  simp [Actuator.Reconcile, hs, h1, h2, h3, h4]

/-- Characterization: Delete when scope construction fails. -/
theorem delete_scopeFail_eq (env : Env) (a : Actuator) (c : Cluster) (e : GoError)
    (h : env.newScope { cluster := c, client := a.client } = Except.error e) :
    Actuator.Delete env a c =
      { err := some (GoError.basic ("failed to create scope: " ++ GoError.format e))
        events := [Event.logInfo ("Reconciling cluster " ++ c.name),
                   Event.newScope { cluster := c, client := a.client }]
        actuator := a, cluster := c } := by
  simp [Actuator.Delete, h]

/-- Characterization: Delete when resource-group deletion fails. -/
theorem delete_rgFail_eq (env : Env) (a : Actuator) (c : Cluster) (s : Scope) (e : GoError)
    (hs : env.newScope { cluster := c, client := a.client } = Except.ok s)
    (h : env.deleteResourceGroup s = some e) :
    Actuator.Delete env a c =
      { err := some (GoError.requeueAfter (5 * 1000 * 1000 * 1000))
        events := [Event.logInfo ("Reconciling cluster " ++ c.name),
                   Event.newScope { cluster := c, client := a.client },
                   Event.newResourcesService s, Event.deleteResourceGroup s,
                   Event.logError ("Error deleting resource group: " ++ GoError.format e ++ "."),
                   Event.scopeClose s]
        actuator := a, cluster := c } := by
  simp [Actuator.Delete, hs, h]

/-- Characterization: Delete when resource-group deletion succeeds. -/
theorem delete_ok_eq (env : Env) (a : Actuator) (c : Cluster) (s : Scope)
    (hs : env.newScope { cluster := c, client := a.client } = Except.ok s)
    (h : env.deleteResourceGroup s = none) :
    Actuator.Delete env a c =
      { err := none
        events := [Event.logInfo ("Reconciling cluster " ++ c.name),
                   Event.newScope { cluster := c, client := a.client },
                   Event.newResourcesService s, Event.deleteResourceGroup s,
                   Event.scopeClose s]
        actuator := a, cluster := c } := by
  simp [Actuator.Delete, hs, h]

/-- With an acquired scope, Reconcile closes it exactly once, and the close
is the last collaborator interaction before the call returns. -/
theorem reconcile_close_once (env : Env) (a : Actuator) (c : Cluster) (s : Scope)
    (hs : env.newScope { cluster := c, client := a.client } = Except.ok s) :
    closeCount (Actuator.Reconcile env a c).events = 1 ∧
    (Actuator.Reconcile env a c).events.getLast? = some (Event.scopeClose s) := by
  rcases h1 : env.reconcileCertificates s with _ | e1
  · rcases h2 : env.reconcileResourceGroup s with _ | e2
    · rcases h3 : env.reconcileNetwork s with _ | e3
      · rcases h4 : env.reconcileLoadBalancer s "api" with _ | e4
        · rw [reconcile_ok_eq env a c s hs h1 h2 h3 h4]
          exact ⟨rfl, rfl⟩
        · rw [reconcile_lbFail_eq env a c s e4 hs h1 h2 h3 h4]
          exact ⟨rfl, rfl⟩
      · rw [reconcile_netFail_eq env a c s e3 hs h1 h2 h3]
        exact ⟨rfl, rfl⟩
    · rw [reconcile_rgFail_eq env a c s e2 hs h1 h2]
      exact ⟨rfl, rfl⟩
  · rw [reconcile_certFail_eq env a c s e1 hs h1]
    exact ⟨rfl, rfl⟩

/-- With an acquired scope, Delete closes it exactly once, and the close is
the last collaborator interaction before the call returns. -/
theorem delete_close_once (env : Env) (a : Actuator) (c : Cluster) (s : Scope)
    (hs : env.newScope { cluster := c, client := a.client } = Except.ok s) :
    closeCount (Actuator.Delete env a c).events = 1 ∧
    (Actuator.Delete env a c).events.getLast? = some (Event.scopeClose s) := by
  rcases h : env.deleteResourceGroup s with _ | e
  · rw [delete_ok_eq env a c s hs h]
    exact ⟨rfl, rfl⟩
  · rw [delete_rgFail_eq env a c s e hs h]
    exact ⟨rfl, rfl⟩

/-- Reconcile returns the actuator and cluster unchanged on every path. -/
theorem reconcile_state (env : Env) (a : Actuator) (c : Cluster) :
    (Actuator.Reconcile env a c).actuator = a ∧ (Actuator.Reconcile env a c).cluster = c := by
  rcases hs : env.newScope { cluster := c, client := a.client } with e | s
  · rw [reconcile_scopeFail_eq env a c e hs]
    exact ⟨rfl, rfl⟩
  · rcases h1 : env.reconcileCertificates s with _ | e1
    · rcases h2 : env.reconcileResourceGroup s with _ | e2
      · rcases h3 : env.reconcileNetwork s with _ | e3
        · rcases h4 : env.reconcileLoadBalancer s "api" with _ | e4
          · rw [reconcile_ok_eq env a c s hs h1 h2 h3 h4]
            exact ⟨rfl, rfl⟩
          · rw [reconcile_lbFail_eq env a c s e4 hs h1 h2 h3 h4]
            exact ⟨rfl, rfl⟩
        · rw [reconcile_netFail_eq env a c s e3 hs h1 h2 h3]
          exact ⟨rfl, rfl⟩
      · rw [reconcile_rgFail_eq env a c s e2 hs h1 h2]
        exact ⟨rfl, rfl⟩
    · rw [reconcile_certFail_eq env a c s e1 hs h1]
      exact ⟨rfl, rfl⟩

/-- Delete returns the actuator and cluster unchanged on every path. -/
theorem delete_state (env : Env) (a : Actuator) (c : Cluster) :
    (Actuator.Delete env a c).actuator = a ∧ (Actuator.Delete env a c).cluster = c := by
  rcases hs : env.newScope { cluster := c, client := a.client } with e | s
  · rw [delete_scopeFail_eq env a c e hs]
    exact ⟨rfl, rfl⟩
  · rcases h : env.deleteResourceGroup s with _ | e
    · rw [delete_ok_eq env a c s hs h]
      exact ⟨rfl, rfl⟩
    · rw [delete_rgFail_eq env a c s e hs h]
      exact ⟨rfl, rfl⟩

/-- C1: with an acquired scope, Reconcile performs exactly the four steps —
certificate reconciliation, resource-group reconciliation, network
reconciliation, load-balancer reconciliation with the fixed identifier
"api" — in that order when all succeed; when a step fails, Reconcile
returns that step's error wrapped with a message naming the failing step
and the cluster name, and performs none of the later steps (in particular a
certificate failure leaves the certificate call as the only step
performed). -/
theorem reconcile_fixed_order_fail_fast (env : Env) (a : Actuator) (c : Cluster) (s : Scope)
    (hs : env.newScope { cluster := c, client := a.client } = Except.ok s) :
    (env.reconcileCertificates s = none → env.reconcileResourceGroup s = none →
      env.reconcileNetwork s = none → env.reconcileLoadBalancer s "api" = none →
      serviceCalls (Actuator.Reconcile env a c).events =
        [Event.reconcileCertificates s, Event.reconcileResourceGroup s,
         Event.reconcileNetwork s, Event.reconcileLoadBalancer s "api"]) ∧
    (∀ e, env.reconcileCertificates s = some e →
      (Actuator.Reconcile env a c).err = some (GoError.wrap e
        ("failed to reconcile certificates for cluster " ++ goQuote c.name)) ∧
      serviceCalls (Actuator.Reconcile env a c).events = [Event.reconcileCertificates s]) ∧
    (∀ e, env.reconcileCertificates s = none → env.reconcileResourceGroup s = some e →
      (Actuator.Reconcile env a c).err = some (GoError.wrap e
        ("failed to reconcile resource group for cluster " ++ goQuote c.name)) ∧
      serviceCalls (Actuator.Reconcile env a c).events =
        [Event.reconcileCertificates s, Event.reconcileResourceGroup s]) ∧
    (∀ e, env.reconcileCertificates s = none → env.reconcileResourceGroup s = none →
      env.reconcileNetwork s = some e →
      (Actuator.Reconcile env a c).err = some (GoError.wrap e
        ("failed to reconcile network for cluster " ++ goQuote c.name)) ∧
      serviceCalls (Actuator.Reconcile env a c).events =
        [Event.reconcileCertificates s, Event.reconcileResourceGroup s,
         Event.reconcileNetwork s]) ∧
    (∀ e, env.reconcileCertificates s = none → env.reconcileResourceGroup s = none →
      env.reconcileNetwork s = none → env.reconcileLoadBalancer s "api" = some e →
      (Actuator.Reconcile env a c).err = some (GoError.wrap e
        ("failed to reconcile load balancers for cluster " ++ goQuote c.name)) ∧
      serviceCalls (Actuator.Reconcile env a c).events =
        [Event.reconcileCertificates s, Event.reconcileResourceGroup s,
         Event.reconcileNetwork s, Event.reconcileLoadBalancer s "api"]) := by
  refine ⟨?_, ?_, ?_, ?_, ?_⟩
  · intro h1 h2 h3 h4
    rw [reconcile_ok_eq env a c s hs h1 h2 h3 h4]
    rfl
  · intro e h1
    rw [reconcile_certFail_eq env a c s e hs h1]
    exact ⟨rfl, rfl⟩
  · intro e h1 h2
    rw [reconcile_rgFail_eq env a c s e hs h1 h2]
    exact ⟨rfl, rfl⟩
  · intro e h1 h2 h3
    rw [reconcile_netFail_eq env a c s e hs h1 h2 h3]
    exact ⟨rfl, rfl⟩
  · intro e h1 h2 h3 h4
    rw [reconcile_lbFail_eq env a c s e hs h1 h2 h3 h4]
    exact ⟨rfl, rfl⟩

/-- Witness for C1: in the environment where certificate reconciliation
fails, Reconcile returns the wrapped certificate error naming the cluster
and performs no later step. -/
theorem reconcile_fixed_order_fail_fast_witness :
    (Actuator.Reconcile envCertFail act0 cluster0).err =
      some (GoError.wrap (GoError.basic "cert boom")
        ("failed to reconcile certificates for cluster " ++ goQuote cluster0.name)) ∧
    serviceCalls (Actuator.Reconcile envCertFail act0 cluster0).events =
      [Event.reconcileCertificates scope0] :=
  (reconcile_fixed_order_fail_fast envCertFail act0 cluster0 scope0 rfl).2.1
    (GoError.basic "cert boom") rfl

/-- C2: with an acquired scope, when resource-group deletion fails Delete
returns the typed requeue signal carrying exactly the fixed delay of
5 * 1000 * 1000 * 1000 nanoseconds (recognizable by type), and when
resource-group deletion succeeds Delete returns nil. -/
theorem delete_requeue_signal (env : Env) (a : Actuator) (c : Cluster) (s : Scope)
    (hs : env.newScope { cluster := c, client := a.client } = Except.ok s) :
    (∀ e, env.deleteResourceGroup s = some e →
      ∃ er, (Actuator.Delete env a c).err = some er ∧
        GoError.isRequeueSignal er = true ∧
        er = GoError.requeueAfter (5 * 1000 * 1000 * 1000)) ∧
    (env.deleteResourceGroup s = none → (Actuator.Delete env a c).err = none) := by
  constructor
  · intro e h
    rw [delete_rgFail_eq env a c s e hs h]
    exact ⟨GoError.requeueAfter (5 * 1000 * 1000 * 1000), rfl, rfl, rfl⟩
  · intro h
    rw [delete_ok_eq env a c s hs h]

/-- Witness for C2: in the environment where resource-group deletion fails,
Delete returns the typed requeue signal with the fixed delay. -/
theorem delete_requeue_signal_witness :
    ∃ er, (Actuator.Delete envDeleteFail act0 cluster0).err = some er ∧
      GoError.isRequeueSignal er = true ∧
      er = GoError.requeueAfter (5 * 1000 * 1000 * 1000) :=
  (delete_requeue_signal envDeleteFail act0 cluster0 scope0 rfl).1 (GoError.basic "boom") rfl

/-- C3: when scope construction fails, Reconcile and Delete both return a
non-nil error whose message embeds the formatted scope-construction
failure, and neither constructs a collaborator service nor performs any
service operation. -/
theorem scope_failure_no_services (env : Env) (a : Actuator) (c : Cluster) (e : GoError)
    (h : env.newScope { cluster := c, client := a.client } = Except.error e) :
    (Actuator.Reconcile env a c).err =
      some (GoError.basic ("failed to create scope: " ++ GoError.format e)) ∧
    ((Actuator.Reconcile env a c).err).isSome = true ∧
    serviceCalls (Actuator.Reconcile env a c).events = [] ∧
    serviceCtors (Actuator.Reconcile env a c).events = [] ∧
    (Actuator.Delete env a c).err =
      some (GoError.basic ("failed to create scope: " ++ GoError.format e)) ∧
    ((Actuator.Delete env a c).err).isSome = true ∧
    serviceCalls (Actuator.Delete env a c).events = [] ∧
    serviceCtors (Actuator.Delete env a c).events = [] := by
  rw [reconcile_scopeFail_eq env a c e h, delete_scopeFail_eq env a c e h]
  exact ⟨rfl, rfl, rfl, rfl, rfl, rfl, rfl, rfl⟩

/-- Witness for C3: in the environment whose scope construction fails, both
calls return the formatted error and perform no service work. -/
theorem scope_failure_no_services_witness :
    (Actuator.Reconcile envScopeFail act0 cluster0).err =
      some (GoError.basic
        ("failed to create scope: " ++ GoError.format (GoError.basic "no credentials"))) ∧
    serviceCalls (Actuator.Reconcile envScopeFail act0 cluster0).events = [] ∧
    serviceCalls (Actuator.Delete envScopeFail act0 cluster0).events = [] := by
  obtain ⟨a1, _, a3, _, _, _, a7, _⟩ :=
    scope_failure_no_services envScopeFail act0 cluster0 (GoError.basic "no credentials") rfl
  exact ⟨a1, a3, a7⟩

/-- C4: whenever the scope is acquired, both Reconcile and Delete release it
exactly once, as the last collaborator interaction before returning, on
every exit path. -/
theorem scope_closed_exactly_once (env : Env) (a : Actuator) (c : Cluster) (s : Scope)
    (hs : env.newScope { cluster := c, client := a.client } = Except.ok s) :
    closeCount (Actuator.Reconcile env a c).events = 1 ∧
    (Actuator.Reconcile env a c).events.getLast? = some (Event.scopeClose s) ∧
    closeCount (Actuator.Delete env a c).events = 1 ∧
    (Actuator.Delete env a c).events.getLast? = some (Event.scopeClose s) := by
  obtain ⟨r1, r2⟩ := reconcile_close_once env a c s hs
  obtain ⟨d1, d2⟩ := delete_close_once env a c s hs
  exact ⟨r1, r2, d1, d2⟩

/-- Witness for C4: in the all-success environment both calls close the
scope exactly once. -/
theorem scope_closed_exactly_once_witness :
    closeCount (Actuator.Reconcile envOk act0 cluster0).events = 1 ∧
    closeCount (Actuator.Delete envOk act0 cluster0).events = 1 := by
  obtain ⟨r1, _, d1, _⟩ := scope_closed_exactly_once envOk act0 cluster0 scope0 rfl
  exact ⟨r1, d1⟩

/-- Counterexample for C5: when resource-group deletion fails with the error
"boom", Delete returns the fixed requeue signal, which neither is that
collaborator error nor has it anywhere in its cause chain — the collaborator
error is swallowed (only logged), refuting the claim that every failing
collaborator call has its error carried as a cause of the returned error. -/
theorem collaborator_error_swallowed_counterexample :
    envDeleteFail.deleteResourceGroup scope0 = some (GoError.basic "boom") ∧
    (Actuator.Delete envDeleteFail act0 cluster0).err =
      some (GoError.requeueAfter 5000000000) ∧
    ¬ GoError.carries (GoError.requeueAfter 5000000000) (GoError.basic "boom") := by
  refine ⟨rfl, rfl, ?_⟩
  rintro (h | h)
  · exact GoError.noConfusion h
  · cases h

/-- C5 (amended): every error from a failing Reconcile step is carried as
the cause of the error Reconcile returns; Delete, however, replaces a
resource-group deletion error by the fixed requeue signal, which carries the
collaborator error only in the degenerate case that the collaborator error
is that very signal value. -/
theorem collaborator_errors_carried_amended (env : Env) (a : Actuator) (c : Cluster) (s : Scope)
    (hs : env.newScope { cluster := c, client := a.client } = Except.ok s) :
    (∀ e, env.reconcileCertificates s = some e →
      ∃ er, (Actuator.Reconcile env a c).err = some er ∧ GoError.carries er e) ∧
    (∀ e, env.reconcileCertificates s = none → env.reconcileResourceGroup s = some e →
      ∃ er, (Actuator.Reconcile env a c).err = some er ∧ GoError.carries er e) ∧
    (∀ e, env.reconcileCertificates s = none → env.reconcileResourceGroup s = none →
      env.reconcileNetwork s = some e →
      ∃ er, (Actuator.Reconcile env a c).err = some er ∧ GoError.carries er e) ∧
    (∀ e, env.reconcileCertificates s = none → env.reconcileResourceGroup s = none →
      env.reconcileNetwork s = none → env.reconcileLoadBalancer s "api" = some e →
      ∃ er, (Actuator.Reconcile env a c).err = some er ∧ GoError.carries er e) ∧
    (∀ e, env.deleteResourceGroup s = some e →
      (Actuator.Delete env a c).err =
        some (GoError.requeueAfter (5 * 1000 * 1000 * 1000)) ∧
      (GoError.carries (GoError.requeueAfter (5 * 1000 * 1000 * 1000)) e →
        e = GoError.requeueAfter (5 * 1000 * 1000 * 1000))) := by
  refine ⟨?_, ?_, ?_, ?_, ?_⟩
  · intro e h1
    rw [reconcile_certFail_eq env a c s e hs h1]
    exact ⟨_, rfl, Or.inr (GoError.causedBy.here e _)⟩
  · intro e h1 h2
    rw [reconcile_rgFail_eq env a c s e hs h1 h2]
    exact ⟨_, rfl, Or.inr (GoError.causedBy.here e _)⟩
  · intro e h1 h2 h3
    rw [reconcile_netFail_eq env a c s e hs h1 h2 h3]
    exact ⟨_, rfl, Or.inr (GoError.causedBy.here e _)⟩
  · intro e h1 h2 h3 h4
    rw [reconcile_lbFail_eq env a c s e hs h1 h2 h3 h4]
    exact ⟨_, rfl, Or.inr (GoError.causedBy.here e _)⟩
  · intro e h
    rw [delete_rgFail_eq env a c s e hs h]
    refine ⟨rfl, ?_⟩
    rintro (hc | hc)
    · exact hc.symm
    · cases hc

/-- Witness for C5 (amended): in the environment where certificate
reconciliation fails, the returned error carries the collaborator error. -/
theorem collaborator_errors_carried_amended_witness :
    ∃ er, (Actuator.Reconcile envCertFail act0 cluster0).err = some er ∧
      GoError.carries er (GoError.basic "cert boom") :=
  (collaborator_errors_carried_amended envCertFail act0 cluster0 scope0 rfl).1
    (GoError.basic "cert boom") rfl

/-- C6: when scope construction and all four reconciliation steps succeed,
Reconcile returns nil. -/
theorem reconcile_success_returns_nil (env : Env) (a : Actuator) (c : Cluster) (s : Scope)
    (hs : env.newScope { cluster := c, client := a.client } = Except.ok s)
    (h1 : env.reconcileCertificates s = none)
    (h2 : env.reconcileResourceGroup s = none)
    (h3 : env.reconcileNetwork s = none)
    (h4 : env.reconcileLoadBalancer s "api" = none) :
    (Actuator.Reconcile env a c).err = none := by
  rw [reconcile_ok_eq env a c s hs h1 h2 h3 h4]

/-- Witness for C6: in the all-success environment Reconcile returns nil. -/
theorem reconcile_success_returns_nil_witness :
    (Actuator.Reconcile envOk act0 cluster0).err = none :=
  reconcile_success_returns_nil envOk act0 cluster0 scope0 rfl rfl rfl rfl rfl

/-- C7: for every cluster, resource-group deletion is the only service
operation Delete ever performs (none at all when scope construction fails),
and the disabled load-balancer, bastion and network deletion operations
never occur in its trace. -/
theorem delete_only_resource_group (env : Env) (a : Actuator) (c : Cluster) :
    (serviceCalls (Actuator.Delete env a c).events = [] ∨
      ∃ s, serviceCalls (Actuator.Delete env a c).events = [Event.deleteResourceGroup s]) ∧
    (Actuator.Delete env a c).events.filter Event.isDisabledDeleteOp = [] := by
  rcases hs : env.newScope { cluster := c, client := a.client } with e | s
  · rw [delete_scopeFail_eq env a c e hs]
    exact ⟨Or.inl rfl, rfl⟩
  · rcases h : env.deleteResourceGroup s with _ | e
    · rw [delete_ok_eq env a c s hs h]
      exact ⟨Or.inr ⟨s, rfl⟩, rfl⟩
    · rw [delete_rgFail_eq env a c s e hs h]
      exact ⟨Or.inr ⟨s, rfl⟩, rfl⟩

/-- C8: Reconcile and Delete leave the actuator (client reference and
deployer delegate) unchanged and return the cluster record unchanged: the
source performs no assignment to either. -/
theorem actuator_cluster_unchanged (env : Env) (a : Actuator) (c : Cluster) :
    (Actuator.Reconcile env a c).actuator = a ∧
    (Actuator.Reconcile env a c).cluster = c ∧
    (Actuator.Delete env a c).actuator = a ∧
    (Actuator.Delete env a c).cluster = c := by
  obtain ⟨r1, r2⟩ := reconcile_state env a c
  obtain ⟨d1, d2⟩ := delete_state env a c
  exact ⟨r1, r2, d1, d2⟩

/-- C9: the scope is released exactly once when its acquisition succeeded
and zero times when acquisition failed, in both Reconcile and Delete: the
close count is one precisely on the calls that acquired a scope. -/
theorem scope_close_iff_acquired (env : Env) (a : Actuator) (c : Cluster) :
    closeCount (Actuator.Reconcile env a c).events =
      (if scopeAcquired (env.newScope { cluster := c, client := a.client }) = true
        then 1 else 0) ∧
    closeCount (Actuator.Delete env a c).events =
      (if scopeAcquired (env.newScope { cluster := c, client := a.client }) = true
        then 1 else 0) := by
  rcases hs : env.newScope { cluster := c, client := a.client } with e | s
  · rw [reconcile_scopeFail_eq env a c e hs, delete_scopeFail_eq env a c e hs]
    exact ⟨rfl, rfl⟩
  · obtain ⟨r1, _⟩ := reconcile_close_once env a c s hs
    obtain ⟨d1, _⟩ := delete_close_once env a c s hs
    exact ⟨r1, d1⟩

/-- C10: the fixed delay of the requeue signal Delete returns on
resource-group deletion failure is exactly 5000000000 nanoseconds
(5 seconds), for every cluster and every failure. -/
theorem delete_requeue_delay_five_seconds (env : Env) (a : Actuator) (c : Cluster)
    (s : Scope) (e : GoError)
    (hs : env.newScope { cluster := c, client := a.client } = Except.ok s)
    (h : env.deleteResourceGroup s = some e) :
    (Actuator.Delete env a c).err = some (GoError.requeueAfter 5000000000) ∧
    ((Actuator.Delete env a c).err.bind GoError.requeueDelay) = some (5000000000 : Int) := by
  rw [delete_rgFail_eq env a c s e hs h]
  exact ⟨rfl, rfl⟩

/-- Witness for C10: in the environment where resource-group deletion
fails, the returned requeue signal carries 5000000000 nanoseconds. -/
theorem delete_requeue_delay_five_seconds_witness :
    (Actuator.Delete envDeleteFail act0 cluster0).err =
      some (GoError.requeueAfter 5000000000) :=
  (delete_requeue_delay_five_seconds envDeleteFail act0 cluster0 scope0
    (GoError.basic "boom") rfl rfl).1

end CAPZ
